import Mathlib

/-!
Formal model of the Baku bus-route data pipeline and its dashboard API.

The ingestion pipeline (scripts/busDetails.py together with the helpers of
scripts/db_utils.py, both described in docs/busDetails.md and the db_utils
documentation) fetches a bus list, fetches per-bus detail records, normalizes
them into eight relational tables, and refreshes the persisted state by
truncate-and-replace (reference tables are upserted instead).  The dashboard
endpoint GET /api/routes/[id]/coordinates is modelled from
dashboard/app/api/routes/[id]/coordinates/route.ts.
-/

namespace BakuBus

/-! ### Coordinate parsing (db_utils.parse_coordinate) -/

/-- Value of a list of decimal digit characters, most significant first. -/
def digitsToNat (l : List Char) : Nat :=
  l.foldl (fun acc c => 10 * acc + (c.toNat - '0'.toNat)) 0

/-- Remove all separators (commas and periods) from a coordinate string. -/
def stripSeparators (s : String) : String :=
  ⟨s.data.filter (fun c => ¬ (c = ',' ∨ c = '.'))⟩

/-- Modelled from the spec: `parse_coordinate` of scripts/db_utils.py (the
script itself is not in the repository snapshot; its documented contract is:
remove all separators, insert a decimal point after the 2nd digit, return a
float or None).  The empty string and any string whose remaining characters
are not all digits yield `none`; otherwise the digit string `d` of length `n`
denotes `d / 10 ^ (n - 2)` when `n > 2` and `d` itself otherwise. -/
def parse_coordinate (coord_str : String) : Option ℚ :=
  if coord_str.data.isEmpty then none
  else
    let cleaned := stripSeparators coord_str
    if cleaned.data.isEmpty then none
    else if ¬ cleaned.data.all Char.isDigit then none
    else
      let n := cleaned.data.length
      let v : ℚ := digitsToNat cleaned.data
      if 2 < n then some (v / (10 ^ (n - 2) : ℕ)) else some v

/-- Value of the period-separated decimal string with integer digits
`intPart` and fractional digits `fracPart` (the spec's statement of what a
grouped coordinate string is equivalent to). -/
def periodEquivalent (intPart fracPart : List Char) : ℚ :=
  (digitsToNat intPart : ℚ) + (digitsToNat fracPart : ℚ) / (10 ^ fracPart.length : ℕ)

/-! ### Upstream data model (API response of getBusById, docs/busDetails.md) -/

/-- Reference sub-object (paymentType / region / workingZoneType). -/
structure RefEntry where
  id : Nat
  name : String
  description : Option String
  isActive : Bool
  priority : Nat
deriving DecidableEq

/-- Nested stop sub-object (`stops[k].stop` in the detail payload). -/
structure StopInfo where
  id : Nat
  code : Option String
  name : String
  nameMonitor : Option String
  longitude : String
  latitude : String
  isTransportHub : Bool
deriving DecidableEq

/-- One element of the `stops` array of a detail payload: a bus↔stop link. -/
structure BusStopEntry where
  busStopId : Nat
  stop : StopInfo
  stopCode : Option String
  stopName : String
  totalDistance : ℚ
  intermediateDistance : ℚ
  directionTypeId : Nat
deriving DecidableEq

/-- One element of the `routes` array of a detail payload: a directional
route variant carrying its raw polyline (`flowCoordinates`, a list of
(latitude, longitude) coordinate strings). -/
structure RouteInfo where
  id : Nat
  code : Option String
  customerName : Option String
  type : Option String
  name : Option String
  destination : Option String
  variant : Option String
  operatorName : Option String
  directionTypeId : Nat
  flowCoordinates : List (String × String)
deriving DecidableEq

/-- Full nested detail record returned by the detail endpoint. -/
structure BusDetail where
  id : Nat
  carrier : String
  number : String
  firstPoint : String
  lastPoint : String
  routLength : ℚ
  paymentType : RefEntry
  region : RefEntry
  workingZoneType : RefEntry
  tariff : Nat
  tariffStr : String
  durationMinuts : Nat
  stops : List BusStopEntry
  routes : List RouteInfo
deriving DecidableEq

/-- One element of the list endpoint's response. -/
structure BusListItem where
  id : Nat
  number : String
deriving DecidableEq

/-! ### Persisted rows (schema ayna, migrations/001_initial_schema.sql) -/

/-- Row of ayna.stop_details. -/
structure StopRow where
  id : Nat
  code : Option String
  name : String
  nameMonitor : Option String
  longitude : Option ℚ
  latitude : Option ℚ
  isTransportHub : Bool
deriving DecidableEq

/-- Row of ayna.buses. -/
structure BusRow where
  id : Nat
  carrier : String
  number : String
  firstPoint : String
  lastPoint : String
  routeLength : ℚ
  paymentTypeId : Nat
  tariff : Nat
  tariffStr : String
  regionId : Nat
  workingZoneTypeId : Nat
  durationMinuts : Nat
deriving DecidableEq

/-- Row of ayna.bus_stops. -/
structure BusStopRow where
  busStopId : Nat
  busId : Nat
  stopId : Nat
  stopCode : Option String
  stopName : String
  totalDistance : ℚ
  intermediateDistance : ℚ
  directionTypeId : Nat
deriving DecidableEq

/-- Row of ayna.routes. -/
structure RouteRow where
  id : Nat
  code : Option String
  customerName : Option String
  type : Option String
  name : Option String
  destination : Option String
  variant : Option String
  operatorName : Option String
  busId : Nat
  directionTypeId : Nat
deriving DecidableEq

/-- Row of ayna.route_coordinates. -/
structure RouteCoordRow where
  routeId : Nat
  latitude : Option ℚ
  longitude : Option ℚ
  sequenceOrder : Nat
deriving DecidableEq

/-- The persisted dataset: the eight tables the pipeline writes. -/
structure Database where
  payment_types : List RefEntry
  regions : List RefEntry
  working_zone_types : List RefEntry
  stop_details : List StopRow
  buses : List BusRow
  bus_stops : List BusStopRow
  routes : List RouteRow
  route_coordinates : List RouteCoordRow
deriving DecidableEq

/-! ### Deduplication by natural key (first occurrence wins) -/

/-- Keep the first occurrence of each key, skipping keys already seen. -/
def dedupeAux {α : Type} (key : α → Nat) : List Nat → List α → List α
  | _, [] => []
  | seen, x :: xs =>
      if key x ∈ seen then dedupeAux key seen xs
      else x :: dedupeAux key (key x :: seen) xs

/-- Collapse a list to one element per key, keeping the first-seen element. -/
def dedupeByKey {α : Type} (key : α → Nat) (l : List α) : List α :=
  dedupeAux key [] l

/-! ### Record normalization (the save_* functions of busDetails.py) -/

/-- Modelled from the spec: the rows inserted by `save_reference_tables` for
one reference table, extracting the unique reference sub-objects. -/
def collect_reference (f : BusDetail → RefEntry) (all : List BusDetail) : List RefEntry :=
  dedupeByKey RefEntry.id (all.map f)

/-- Stop-detail row built from one nested stop sub-object (coordinates are
decoded with `parse_coordinate`). -/
def stopRowOf (s : StopInfo) : StopRow :=
  { id := s.id, code := s.code, name := s.name, nameMonitor := s.nameMonitor,
    longitude := parse_coordinate s.longitude,
    latitude := parse_coordinate s.latitude,
    isTransportHub := s.isTransportHub }

/-- Modelled from the spec: `save_stop_details` collects the unique stops of
all fetched buses (deduplicated by stop id, first-seen representation kept). -/
def save_stop_details (all : List BusDetail) : List StopRow :=
  dedupeByKey StopRow.id ((all.flatMap fun d => d.stops.map (·.stop)).map stopRowOf)

/-- Bus row built from one detail record. -/
def busRowOf (d : BusDetail) : BusRow :=
  { id := d.id, carrier := d.carrier, number := d.number,
    firstPoint := d.firstPoint, lastPoint := d.lastPoint,
    routeLength := d.routLength, paymentTypeId := d.paymentType.id,
    tariff := d.tariff, tariffStr := d.tariffStr,
    regionId := d.region.id, workingZoneTypeId := d.workingZoneType.id,
    durationMinuts := d.durationMinuts }

/-- Modelled from the spec: `save_buses` inserts one row per detail record. -/
def save_buses (all : List BusDetail) : List BusRow :=
  all.map busRowOf

/-- Bus-stop link row built from one entry of a bus's `stops` array. -/
def busStopRowOf (busId : Nat) (e : BusStopEntry) : BusStopRow :=
  { busStopId := e.busStopId, busId := busId, stopId := e.stop.id,
    stopCode := e.stopCode, stopName := e.stopName,
    totalDistance := e.totalDistance,
    intermediateDistance := e.intermediateDistance,
    directionTypeId := e.directionTypeId }

/-- Modelled from the spec: `save_bus_stops` inserts every link entry of
every fetched bus. -/
def save_bus_stops (all : List BusDetail) : List BusStopRow :=
  all.flatMap fun d => d.stops.map (busStopRowOf d.id)

/-- Route row built from one directional route sub-object of bus `busId`. -/
def routeRowOf (busId : Nat) (r : RouteInfo) : RouteRow :=
  { id := r.id, code := r.code, customerName := r.customerName,
    type := r.type, name := r.name, destination := r.destination,
    variant := r.variant, operatorName := r.operatorName,
    busId := busId, directionTypeId := r.directionTypeId }

/-- Modelled from the spec: `save_routes` inserts every route sub-object of
every fetched bus, keeping its parent bus id. -/
def save_routes (all : List BusDetail) : List RouteRow :=
  all.flatMap fun d => d.routes.map (routeRowOf d.id)

/-- Coordinate rows of one route variant: its raw polyline is walked in
source order, each point decoded with `parse_coordinate` and given a
sequence number starting at 0. -/
def coordRowsOf (r : RouteInfo) : List RouteCoordRow :=
  r.flowCoordinates.enum.map fun p =>
    { routeId := r.id, latitude := parse_coordinate p.2.1,
      longitude := parse_coordinate p.2.2, sequenceOrder := p.1 }

/-- Modelled from the spec: `save_route_coordinates` extracts the
flowCoordinates of all routes of all fetched buses. -/
def save_route_coordinates (all : List BusDetail) : List RouteCoordRow :=
  all.flatMap fun d => d.routes.flatMap coordRowsOf

/-! ### Reference upsert (db_utils.upsert_reference_data) -/

/-- Insert-or-update a single reference row keyed by id. -/
def upsertRef (table : List RefEntry) (e : RefEntry) : List RefEntry :=
  if table.any fun x => x.id = e.id then
    table.map fun x => if x.id = e.id then e else x
  else table ++ [e]

/-- Modelled from the spec: `upsert_reference_data` inserts-or-updates each
given reference row by id and never deletes existing rows. -/
def upsert_reference_data (table : List RefEntry) (data : List RefEntry) : List RefEntry :=
  data.foldl upsertRef table

/-! ### The full refresh and the pipeline run (busDetails.py main flow) -/

/-- Modelled from the spec: the write phase of a successful run.  Reference
tables are upserted; every other table is truncated (CASCADE) and reloaded
from the normalized record sets, so its final contents are exactly the
freshly collected rows. -/
def save_all_data (db : Database) (all : List BusDetail) : Database :=
  { payment_types := upsert_reference_data db.payment_types (collect_reference BusDetail.paymentType all),
    regions := upsert_reference_data db.regions (collect_reference BusDetail.region all),
    working_zone_types := upsert_reference_data db.working_zone_types (collect_reference BusDetail.workingZoneType all),
    stop_details := save_stop_details all,
    buses := save_buses all,
    bus_stops := save_bus_stops all,
    routes := save_routes all,
    route_coordinates := save_route_coordinates all }

/-- Modelled from the spec: `fetch_all_bus_details` returns `none` when the
bus-list fetch fails and otherwise the details of exactly the identifiers
whose detail fetch succeeded, in list order. -/
def fetch_all_bus_details (busList : Option (List BusListItem))
    (fetchDetails : Nat → Option BusDetail) : Option (List BusDetail) :=
  match busList with
  | none => none
  | some l => some (l.filterMap fun b => fetchDetails b.id)

/-- The successfully fetched detail records of a run over `l`. -/
def fetchedDetails (l : List BusListItem) (fetchDetails : Nat → Option BusDetail) :
    List BusDetail :=
  l.filterMap fun b => fetchDetails b.id

/-- Modelled from the spec: one pipeline run.  A failed list fetch aborts
before any write with exit code 1; otherwise the write phase replaces the
dataset and the run exits 0. -/
def run_pipeline (db : Database) (busList : Option (List BusListItem))
    (fetchDetails : Nat → Option BusDetail) : Database × Nat :=
  match fetch_all_bus_details busList fetchDetails with
  | none => (db, 1)
  | some all => (save_all_data db all, 0)

/-- Dataset after a run (first component of `run_pipeline`). -/
def runResult (db : Database) (busList : Option (List BusListItem))
    (fetchDetails : Nat → Option BusDetail) : Database :=
  (run_pipeline db busList fetchDetails).1

/-- Decides that the detail fetch for identifier `i` succeeds and returns a
record whose id field equals `i`. -/
def fetchOk (fetchDetails : Nat → Option BusDetail) (i : Nat) : Bool :=
  match fetchDetails i with
  | some d => d.id == i
  | none => false

/-! ### Dashboard coordinates endpoint
(dashboard/app/api/routes/[id]/coordinates/route.ts) -/

/-- JavaScript whitespace skipped by `parseInt`. -/
def isJsWhitespace (c : Char) : Bool :=
  c == ' ' || c == '\t' || c == '\n' || c == '\r' || c == '\x0b' || c == '\x0c'

/-- Hexadecimal digit test for `parseInt`'s 0x prefix handling. -/
def isHexDigitChar (c : Char) : Bool :=
  c.isDigit || ('a' ≤ c && c ≤ 'f') || ('A' ≤ c && c ≤ 'F')

/-- Value of a hexadecimal digit character. -/
def hexDigitVal (c : Char) : Nat :=
  if c.isDigit then c.toNat - '0'.toNat
  else if 'a' ≤ c && c ≤ 'f' then c.toNat - 'a'.toNat + 10
  else c.toNat - 'A'.toNat + 10

/-- Value of a list of hexadecimal digit characters. -/
def hexToNat (l : List Char) : Nat :=
  l.foldl (fun acc c => 16 * acc + hexDigitVal c) 0

/-- JavaScript `parseInt(s)` with no radix argument: skip leading
whitespace, read an optional sign, honour a 0x/0X hexadecimal prefix,
then take the longest digit prefix; `none` models NaN. -/
def jsParseInt (s : String) : Option Int :=
  let chars := s.data.dropWhile isJsWhitespace
  let signed : Int × List Char :=
    match chars with
    | '-' :: rest => (-1, rest)
    | '+' :: rest => (1, rest)
    | rest => (1, rest)
  match signed.2 with
  | '0' :: c :: rest =>
      if c == 'x' || c == 'X' then
        let ds := rest.takeWhile isHexDigitChar
        if ds.isEmpty then none else some (signed.1 * hexToNat ds)
      else
        let ds := (signed.2).takeWhile Char.isDigit
        if ds.isEmpty then none else some (signed.1 * digitsToNat ds)
  | _ =>
      let ds := (signed.2).takeWhile Char.isDigit
      if ds.isEmpty then none else some (signed.1 * digitsToNat ds)

/-- Response of the coordinates endpoint: a JSON row list (HTTP 200) or a
JSON error object (HTTP 400). -/
inductive CoordResponse where
  | ok (rows : List RouteCoordRow)
  | badRequest (error : String)
deriving DecidableEq

/-- HTTP status of a `CoordResponse`. -/
def CoordResponse.status : CoordResponse → Nat
  | .ok _ => 200
  | .badRequest _ => 400

/-- Comparison used by ORDER BY sequence_order. -/
def seqLe (a b : RouteCoordRow) : Prop :=
  a.sequenceOrder ≤ b.sequenceOrder

instance : DecidableRel seqLe := fun a b => Nat.decLe a.sequenceOrder b.sequenceOrder

instance : IsTotal RouteCoordRow seqLe :=
  ⟨fun a b => Nat.le_total a.sequenceOrder b.sequenceOrder⟩

instance : IsTrans RouteCoordRow seqLe :=
  ⟨fun _ _ _ hab hbc => Nat.le_trans hab hbc⟩

/-- SELECT ... WHERE route_id = $1 ORDER BY sequence_order over the
route_coordinates table. -/
def selectCoordinates (table : List RouteCoordRow) (routeId : Int) : List RouteCoordRow :=
  List.insertionSort seqLe (table.filter fun c => (c.routeId : Int) == routeId)

/-- The GET handler of /api/routes/[id]/coordinates: `parseInt` the id path
segment; on NaN answer 400 with body error "Invalid route ID" issuing no
database query; otherwise answer the route's rows ordered by
sequence_order.  The second component counts the database queries issued. -/
def coordinates_GET (table : List RouteCoordRow) (idStr : String) : CoordResponse × Nat :=
  match jsParseInt idStr with
  | none => (CoordResponse.badRequest "Invalid route ID", 0)
  | some routeId => (CoordResponse.ok (selectCoordinates table routeId), 1)

/-! ### Sample fixtures used by the witnesses -/

/-- Sample payment-type reference sub-object. -/
def refPayment : RefEntry := ⟨2, "Negd", none, true, 2⟩

/-- Sample region reference sub-object. -/
def refRegion : RefEntry := ⟨1, "Baku", none, true, 1⟩

/-- Sample working-zone reference sub-object. -/
def refZone : RefEntry := ⟨5, "Urban", none, true, 1⟩

/-- Sample stop shared by both sample buses. -/
def stopInfoA : StopInfo := ⟨101, some "A1", "StopA", none, "49,961721", "40,43885", false⟩

/-- Sample stop used by one bus only. -/
def stopInfoB : StopInfo := ⟨102, some "B1", "StopB", none, "49,961", "40,438", true⟩

/-- Five-point sample polyline. -/
def flow5 : List (String × String) :=
  [("40,1", "49,1"), ("40,2", "49,2"), ("40,3", "49,3"), ("40,4", "49,4"), ("40,5", "49,5")]

/-- Outbound route variant of sample bus 1. -/
def route11 : RouteInfo := ⟨11, some "c11", none, none, none, none, none, none, 1, flow5⟩

/-- Inbound route variant of sample bus 1. -/
def route12 : RouteInfo := ⟨12, some "c12", none, none, none, none, none, none, 2, flow5⟩

/-- Outbound route variant of sample bus 3. -/
def route31 : RouteInfo := ⟨31, some "c31", none, none, none, none, none, none, 1, flow5⟩

/-- Inbound route variant of sample bus 3. -/
def route32 : RouteInfo := ⟨32, some "c32", none, none, none, none, none, none, 2, flow5⟩

/-- Detail record of sample bus 1 (serves stops A and B). -/
def busDetail1 : BusDetail :=
  ⟨1, "CarrierX", "1", "P1", "P2", 30, refPayment, refRegion, refZone, 50, "0.50 AZN", 50,
    [⟨1001, stopInfoA, some "A1", "StopA", 0, 0, 1⟩,
     ⟨1002, stopInfoB, some "B1", "StopB", 2, 2, 1⟩],
    [route11, route12]⟩

/-- Detail record of sample bus 3 (serves stop A only). -/
def busDetail3 : BusDetail :=
  ⟨3, "CarrierY", "3", "P3", "P4", 20, refPayment, refRegion, refZone, 50, "0.50 AZN", 40,
    [⟨3001, stopInfoA, some "A1", "StopA", 0, 0, 1⟩],
    [route31, route32]⟩

/-- Sample detail fetch: bus 2 fails, buses 1 and 3 succeed. -/
def sampleFetch : Nat → Option BusDetail := fun i =>
  if i = 1 then some busDetail1 else if i = 3 then some busDetail3 else none

/-- Sample bus list with three identifiers. -/
def sampleBusList : List BusListItem := [⟨1, "1"⟩, ⟨2, "144"⟩, ⟨3, "3"⟩]

/-- Empty dataset. -/
def emptyDb : Database := ⟨[], [], [], [], [], [], [], []⟩

/-- Dataset holding a pre-existing reference row and a stale bus row. -/
def sampleDb : Database :=
  { emptyDb with
    payment_types := [⟨9, "Old", none, true, 7⟩],
    buses := [⟨99, "Stale", "99", "X", "Y", 1, 2, 50, "0.50 AZN", 1, 5, 10⟩] }

/-- Sample route_coordinates table for the endpoint witness. -/
def sampleCoordTable : List RouteCoordRow :=
  [⟨501, some 40, some 49, 1⟩, ⟨501, some 41, some 50, 0⟩, ⟨502, some 42, some 51, 0⟩]

/-! ### Helper lemmas -/

theorem digitsToNat_go (l : List Char) (acc : Nat) :
    l.foldl (fun a c => 10 * a + (c.toNat - '0'.toNat)) acc
      = acc * 10 ^ l.length + digitsToNat l := by
  induction l generalizing acc with
  | nil => simp [digitsToNat]
  | cons c t ih =>
      simp only [List.foldl_cons, List.length_cons, digitsToNat]
      rw [ih, ih (10 * 0 + (c.toNat - '0'.toNat))]
      ring

theorem digitsToNat_append (a b : List Char) :
    digitsToNat (a ++ b) = digitsToNat a * 10 ^ b.length + digitsToNat b := by
  unfold digitsToNat
  rw [List.foldl_append]
  exact digitsToNat_go b _

theorem mem_key_dedupeAux {α : Type} (key : α → Nat) (seen : List Nat) (l : List α)
    (x : α) (hx : x ∈ l) (hs : key x ∉ seen) :
    ∃ y ∈ dedupeAux key seen l, key y = key x := by
  induction l generalizing seen with
  | nil => cases hx
  | cons hd t ih =>
      by_cases hk : key hd ∈ seen
      · simp only [dedupeAux, if_pos hk]
        rcases List.mem_cons.1 hx with rfl | hx2
        · exact absurd hk hs
        · exact ih seen hx2 hs
      · simp only [dedupeAux, if_neg hk]
        rcases List.mem_cons.1 hx with rfl | hx2
        · exact ⟨x, List.mem_cons_self _ _, rfl⟩
        · by_cases hkx : key x = key hd
          · exact ⟨hd, List.mem_cons_self _ _, hkx.symm⟩
          · have hs2 : key x ∉ key hd :: seen := by
              intro hmem
              rcases List.mem_cons.1 hmem with h1 | h2
              · exact hkx h1
              · exact hs h2
            obtain ⟨y, hy, hky⟩ := ih (key hd :: seen) hx2 hs2
            exact ⟨y, List.mem_cons_of_mem _ hy, hky⟩

theorem mem_key_dedupeByKey {α : Type} (key : α → Nat) (l : List α)
    (x : α) (hx : x ∈ l) :
    ∃ y ∈ dedupeByKey key l, key y = key x :=
  mem_key_dedupeAux key [] l x hx (by simp)

theorem countP_dedupeAux {α : Type} (key : α → Nat) (seen : List Nat) (l : List α)
    (c : Nat) :
    (dedupeAux key seen l).countP (fun y => key y == c)
      = if c ∈ seen then 0 else if l.any (fun y => key y == c) then 1 else 0 := by
  induction l generalizing seen with
  | nil => simp [dedupeAux]
  | cons hd t ih =>
      by_cases hk : key hd ∈ seen
      · simp only [dedupeAux, if_pos hk]
        rw [ih seen]
        by_cases hc : c ∈ seen
        · simp [hc]
        · have hne : ¬ key hd = c := fun h => hc (h ▸ hk)
          simp [hc, List.any_cons, hne]
      · simp only [dedupeAux, if_neg hk]
        rw [List.countP_cons, ih (key hd :: seen)]
        by_cases hc : c ∈ seen
        · have hne : ¬ key hd = c := fun h => hk (h ▸ hc)
          simp [hc, List.mem_cons, hne]
        · by_cases heq : key hd = c
          · simp [heq, hc, List.any_cons]
          · have heq2 : ¬ c = key hd := fun h => heq h.symm
            simp [hc, List.mem_cons, heq, heq2, List.any_cons]

theorem countP_dedupeByKey {α : Type} (key : α → Nat) (l : List α) (c : Nat) :
    (dedupeByKey key l).countP (fun y => key y == c)
      = if l.any (fun y => key y == c) then 1 else 0 := by
  rw [dedupeByKey, countP_dedupeAux]
  simp

theorem countP_flatMap {β α : Type} (l : List β) (rows : β → List α) (p : α → Bool) :
    (l.flatMap rows).countP p = (l.map fun b => (rows b).countP p).sum := by
  induction l with
  | nil => simp
  | cons hd t ih => simp [List.flatMap_cons, List.countP_append, ih]

theorem filter_flatMap_key {β α : Type} (l : List β) (key : β → Nat)
    (rows : β → List α) (rowKey : α → Nat)
    (h : ∀ b ∈ l, ∀ a ∈ rows b, rowKey a = key b)
    (hnd : (l.map key).Nodup) (b0 : β) (hb0 : b0 ∈ l) :
    (l.flatMap rows).filter (fun a => rowKey a == key b0) = rows b0 := by
  induction l with
  | nil => cases hb0
  | cons hd t ih =>
      rw [List.map_cons, List.nodup_cons] at hnd
      rw [List.flatMap_cons, List.filter_append]
      rcases List.mem_cons.1 hb0 with rfl | hb0t
      · have h1 : (rows b0).filter (fun a => rowKey a == key b0) = rows b0 := by
          apply List.filter_eq_self.2
          intro a ha
          simp [h b0 (List.mem_cons_self _ _) a ha]
        have h2 : (t.flatMap rows).filter (fun a => rowKey a == key b0) = [] := by
          apply List.filter_eq_nil_iff.2
          intro a ha
          obtain ⟨b, hb, hab⟩ := List.mem_flatMap.1 ha
          rw [h b (List.mem_cons_of_mem _ hb) a hab]
          simp only [beq_iff_eq]
          intro hkey
          exact hnd.1 (hkey ▸ List.mem_map_of_mem key hb)
        rw [h1, h2, List.append_nil]
      · have hne : key hd ≠ key b0 := by
          intro hkey
          exact hnd.1 (hkey ▸ List.mem_map_of_mem key hb0t)
        have h1 : (rows hd).filter (fun a => rowKey a == key b0) = [] := by
          apply List.filter_eq_nil_iff.2
          intro a ha
          rw [h hd (List.mem_cons_self _ _) a ha]
          simpa using hne
        rw [h1, List.nil_append]
        exact ih (fun b hb => h b (List.mem_cons_of_mem _ hb)) hnd.2 hb0t

theorem filterMap_eq_filterMap_filter {α β : Type} (g : α → Option β) (p : α → Bool)
    (l : List α) (h : ∀ a ∈ l, p a = false → g a = none) :
    l.filterMap g = (l.filter p).filterMap g := by
  induction l with
  | nil => rfl
  | cons hd t ih =>
      have ht : ∀ a ∈ t, p a = false → g a = none :=
        fun a ha => h a (List.mem_cons_of_mem _ ha)
      cases hp : p hd with
      | true => simp [List.filter_cons, hp, List.filterMap_cons, ih ht]
      | false =>
          rw [List.filter_cons, if_neg (by simp [hp]), List.filterMap_cons,
            h hd (List.mem_cons_self _ _) hp, ih ht]

theorem length_filterMap_all_isSome {α β : Type} (g : α → Option β) (l : List α)
    (h : ∀ a ∈ l, (g a).isSome) : (l.filterMap g).length = l.length := by
  induction l with
  | nil => rfl
  | cons hd t ih =>
      have hhd := h hd (List.mem_cons_self _ _)
      obtain ⟨b, hb⟩ := Option.isSome_iff_exists.1 hhd
      rw [List.filterMap_cons, hb]
      simp [ih fun a ha => h a (List.mem_cons_of_mem _ ha)]

theorem length_filter_of_single_failure (l : List BusListItem) (fid : Nat)
    (hmem : fid ∈ l.map BusListItem.id) (hnd : (l.map BusListItem.id).Nodup) :
    (l.filter fun b => b.id != fid).length = l.length - 1 := by
  induction l with
  | nil => cases hmem
  | cons hd t ih =>
      rw [List.map_cons, List.nodup_cons] at hnd
      rcases List.mem_cons.1 hmem with heq | hmemt
      · have hfilter : t.filter (fun b => b.id != fid) = t := by
          apply List.filter_eq_self.2
          intro b hb
          simp only [bne_iff_ne, ne_eq]
          intro hbid
          exact hnd.1 (heq ▸ hbid ▸ List.mem_map_of_mem BusListItem.id hb)
        rw [List.filter_cons, if_neg (by simp [heq]), hfilter]
        simp
      · have hne : hd.id ≠ fid := by
          intro hbid
          exact hnd.1 (hbid ▸ hmemt)
        have ht : 1 ≤ t.length := by
          rcases List.mem_map.1 hmemt with ⟨b, hb, _⟩
          exact List.length_pos.2 (List.ne_nil_of_mem hb)
        rw [List.filter_cons, if_pos (by simp [hne])]
        simp only [List.length_cons]
        rw [ih hmemt hnd.2]
        omega

theorem sum_map_eq_countP {β : Type} (l : List β) (cnt : β → Nat)
    (h : ∀ b ∈ l, cnt b ≤ 1) :
    (l.map cnt).sum = l.countP (fun b => cnt b != 0) := by
  induction l with
  | nil => rfl
  | cons hd t ih =>
      rw [List.map_cons, List.sum_cons, List.countP_cons,
        ih fun b hb => h b (List.mem_cons_of_mem _ hb)]
      have : cnt hd = 0 ∨ cnt hd = 1 := by
        have := h hd (List.mem_cons_self _ _)
        omega
      rcases this with h0 | h1
      · simp [h0]
      · simp [h1, Nat.add_comm]

theorem upsertRef_preserves (t : List RefEntry) (r e : RefEntry) (he : e ∈ t) :
    ∃ e2 ∈ upsertRef t r, e2.id = e.id := by
  unfold upsertRef
  by_cases hany : t.any fun x => x.id = r.id
  · rw [if_pos (by simpa using hany)]
    refine ⟨if e.id = r.id then r else e, List.mem_map_of_mem _ he, ?_⟩
    by_cases hid : e.id = r.id
    · simp [hid]
    · simp [hid]
  · rw [if_neg (by simpa using hany)]
    exact ⟨e, List.mem_append_left _ he, rfl⟩

theorem upsert_reference_data_preserves (t data : List RefEntry) (e : RefEntry)
    (he : e ∈ t) :
    ∃ e2 ∈ upsert_reference_data t data, e2.id = e.id := by
  induction data generalizing t e with
  | nil => exact ⟨e, he, rfl⟩
  | cons d rest ih =>
      obtain ⟨e2, he2, hid⟩ := upsertRef_preserves t d e he
      obtain ⟨e3, he3, hid3⟩ := ih (upsertRef t d) e2 he2
      exact ⟨e3, he3, hid3.trans hid⟩

theorem coordRowsOf_length (r : RouteInfo) :
    (coordRowsOf r).length = r.flowCoordinates.length := by
  simp [coordRowsOf]

theorem coordRowsOf_routeId (r : RouteInfo) (a : RouteCoordRow)
    (ha : a ∈ coordRowsOf r) : a.routeId = r.id := by
  simp only [coordRowsOf, List.mem_map] at ha
  obtain ⟨p, _, rfl⟩ := ha
  rfl

theorem coordRowsOf_map_seq (r : RouteInfo) :
    (coordRowsOf r).map RouteCoordRow.sequenceOrder
      = List.range r.flowCoordinates.length := by
  rw [coordRowsOf, List.map_map]
  exact List.enum_map_fst r.flowCoordinates

theorem save_route_coordinates_eq (all : List BusDetail) :
    save_route_coordinates all = (all.flatMap BusDetail.routes).flatMap coordRowsOf := by
  induction all with
  | nil => rfl
  | cons d t ih =>
      show (d.routes.flatMap coordRowsOf) ++ t.flatMap (fun x => x.routes.flatMap coordRowsOf)
        = (d.routes ++ t.flatMap BusDetail.routes).flatMap coordRowsOf
      rw [List.flatMap_append]
      exact congrArg (d.routes.flatMap coordRowsOf ++ ·) ih

theorem mem_save_bus_stops (all : List BusDetail) (x : BusStopRow) :
    x ∈ save_bus_stops all ↔ ∃ d ∈ all, ∃ e ∈ d.stops, x = busStopRowOf d.id e := by
  simp only [save_bus_stops, List.mem_flatMap, List.mem_map]
  constructor
  · rintro ⟨d, hd, e, he, rfl⟩
    exact ⟨d, hd, e, he, rfl⟩
  · rintro ⟨d, hd, e, he, rfl⟩
    exact ⟨d, hd, e, he, rfl⟩

theorem mem_save_routes (all : List BusDetail) (x : RouteRow) :
    x ∈ save_routes all ↔ ∃ d ∈ all, ∃ r ∈ d.routes, x = routeRowOf d.id r := by
  simp only [save_routes, List.mem_flatMap, List.mem_map]
  constructor
  · rintro ⟨d, hd, r, hr, rfl⟩
    exact ⟨d, hd, r, hr, rfl⟩
  · rintro ⟨d, hd, r, hr, rfl⟩
    exact ⟨d, hd, r, hr, rfl⟩

theorem parse_coordinate_eq_periodEquivalent (intPart fracPart : List Char) (s : String)
    (hint : intPart.length = 2) (hfrac : fracPart ≠ [])
    (hdig : (intPart ++ fracPart).all Char.isDigit = true)
    (hstrip : (stripSeparators s).data = intPart ++ fracPart)
    (hne : s.data.isEmpty = false) :
    parse_coordinate s = some (periodEquivalent intPart fracPart) := by
  have hk : 0 < fracPart.length := List.length_pos.2 hfrac
  have hni : (intPart ++ fracPart).isEmpty = false := by
    cases intPart with
    | nil => simp at hint
    | cons a t => rfl
  have hlen : (intPart ++ fracPart).length = 2 + fracPart.length := by
    rw [List.length_append, hint]
  simp only [parse_coordinate, hne, Bool.false_eq_true, if_false, hstrip, hni, hdig,
    not_true, hlen]
  rw [if_pos (by omega)]
  have hsub : 2 + fracPart.length - 2 = fracPart.length := by omega
  rw [hsub, digitsToNat_append]
  unfold periodEquivalent
  have hpow : ((10 ^ fracPart.length : ℕ) : ℚ) ≠ 0 := by positivity
  congr 1
  push_cast
  field_simp

/-- Claim C3 counterexample: the claim asserts pass-through for every
period-separated decimal string, but parse_coordinate re-inserts the
decimal point after the second digit unconditionally, so the one-integer-
digit string "5.123" decodes to 51.23, not 5.123. -/
theorem c3_passthrough_counterexample :
    parse_coordinate "5.123" = some ((5123 : ℚ) / 100) ∧
      ((5123 : ℚ) / 100) ≠ (5123 : ℚ) / 1000 := by
  constructor
  · have hs : (stripSeparators "5.123").data = ['5', '1', '2', '3'] := by decide
    have h0 : ("5.123" : String).data.isEmpty = false := by decide
    have h2 : (['5', '1', '2', '3'] : List Char).isEmpty = false := by decide
    have h3 : (['5', '1', '2', '3'] : List Char).all Char.isDigit = true := by decide
    have h4 : digitsToNat ['5', '1', '2', '3'] = 5123 := by decide
    have h5 : (['5', '1', '2', '3'] : List Char).length = 4 := by decide
    simp only [parse_coordinate, h0, hs, h2, h3, h4, h5, Bool.false_eq_true, if_false,
      not_true]
    norm_num
  · norm_num

/-- Claim C3 (amended): every grouped coordinate string whose digit content
is two integer digits followed by a nonempty fractional part decodes to the
value of its period-separated equivalent, and a period-separated decimal
string with exactly two integer digits passes through with its value
unchanged. -/
theorem c3_grouped_decoding (intPart fracPart : List Char) (s : String)
    (hint : intPart.length = 2) (hfrac : fracPart ≠ [])
    (hdig : (intPart ++ fracPart).all Char.isDigit = true)
    (hstrip : (stripSeparators s).data = intPart ++ fracPart)
    (hne : s.data.isEmpty = false) :
    parse_coordinate s = some (periodEquivalent intPart fracPart) ∧
      parse_coordinate (String.mk (intPart ++ '.' :: fracPart))
        = some (periodEquivalent intPart fracPart) := by
  refine ⟨parse_coordinate_eq_periodEquivalent intPart fracPart s hint hfrac hdig hstrip hne,
    parse_coordinate_eq_periodEquivalent intPart fracPart _ hint hfrac hdig ?_ ?_⟩
  · have hd : ∀ c : Char, c.isDigit = true → ¬ (c = ',' ∨ c = '.') := by
      intro c hc h
      rcases h with h | h <;> subst h <;> exact absurd hc (by decide)
    have h1 : intPart.filter (fun c => ¬ (c = ',' ∨ c = '.')) = intPart := by
      apply List.filter_eq_self.2
      intro a ha
      simpa using hd a (List.all_eq_true.1 hdig a (List.mem_append_left _ ha))
    have h2 : fracPart.filter (fun c => ¬ (c = ',' ∨ c = '.')) = fracPart := by
      apply List.filter_eq_self.2
      intro a ha
      simpa using hd a (List.all_eq_true.1 hdig a (List.mem_append_right _ ha))
    show (intPart ++ '.' :: fracPart).filter (fun c => ¬ (c = ',' ∨ c = '.'))
      = intPart ++ fracPart
    rw [List.filter_append, List.filter_cons, h1, h2]
    simp
  · cases intPart with
    | nil => simp at hint
    | cons a t => rfl

/-- Claim C3 witness: the grouped encodings of 50.206297 and of 40.43885
decode to those values, and the period form "40.43885" passes through. -/
theorem c3_grouped_decoding_witness :
    parse_coordinate "50,206,297" = some (periodEquivalent ['5', '0'] ['2', '0', '6', '2', '9', '7']) ∧
      parse_coordinate "40,43885" = some (periodEquivalent ['4', '0'] ['4', '3', '8', '8', '5']) ∧
      parse_coordinate "40.43885" = some (periodEquivalent ['4', '0'] ['4', '3', '8', '8', '5']) := by
  refine ⟨?_, ?_, ?_⟩
  · exact (c3_grouped_decoding ['5', '0'] ['2', '0', '6', '2', '9', '7'] "50,206,297"
      (by decide) (by decide) (by decide) (by decide) (by decide)).1
  · exact (c3_grouped_decoding ['4', '0'] ['4', '3', '8', '8', '5'] "40,43885"
      (by decide) (by decide) (by decide) (by decide) (by decide)).1
  · exact (c3_grouped_decoding ['4', '0'] ['4', '3', '8', '8', '5'] "40.43885"
      (by decide) (by decide) (by decide) (by decide) (by decide)).1

/-- Claim C4: parse_coordinate is a total function into Option (it never
raises): it answers none for the empty string, none whenever the string
stripped of separators is empty or still holds a non-digit character (the
unparseable cases), and a decode failure never suppresses a coordinate
row: save_route_coordinates emits one row per raw polyline point no matter
whether its strings decode. -/
theorem c4_parse_coordinate_failsoft :
    parse_coordinate "" = none ∧
    (∀ s : String, (stripSeparators s).data.all Char.isDigit = false →
        parse_coordinate s = none) ∧
    (∀ s : String, (stripSeparators s).data = [] → parse_coordinate s = none) ∧
    (∀ all : List BusDetail, (save_route_coordinates all).length
        = ((all.flatMap BusDetail.routes).map fun r => r.flowCoordinates.length).sum) := by
  refine ⟨rfl, ?_, ?_, ?_⟩
  · intro s h
    by_cases hs : s.data.isEmpty
    · simp [parse_coordinate, hs]
    · cases hdata : (stripSeparators s).data.isEmpty
      · simp [parse_coordinate, hs, hdata, h]
      · simp [parse_coordinate, hs, hdata]
  · intro s h
    by_cases hs : s.data.isEmpty
    · simp [parse_coordinate, hs]
    · simp [parse_coordinate, hs, h]
  · intro all
    rw [save_route_coordinates_eq, List.length_flatMap]
    congr 1
    exact List.map_congr_left fun r _ => coordRowsOf_length r

/-- Claim C4 witness: a non-numeric string and a separators-only string
both decode to none, and the ten raw points of sample bus 1 yield ten
coordinate rows even though decodability was never assumed. -/
theorem c4_parse_coordinate_failsoft_witness :
    parse_coordinate "abc" = none ∧ parse_coordinate ",," = none ∧
      (save_route_coordinates [busDetail1]).length
        = ((([busDetail1] : List BusDetail).flatMap BusDetail.routes).map
            fun r => r.flowCoordinates.length).sum :=
  ⟨c4_parse_coordinate_failsoft.2.1 "abc" (by decide),
   c4_parse_coordinate_failsoft.2.2.1 ",," (by decide),
   c4_parse_coordinate_failsoft.2.2.2 [busDetail1]⟩

/-- Claim C8: when the list-endpoint fetch fails the run aborts with exit
code 1 (non-zero) and the persisted dataset is exactly what it was before
the run: no table is truncated, upserted or loaded. -/
theorem c8_fatal_list_fetch (db : Database) (fetchDetails : Nat → Option BusDetail) :
    run_pipeline db none fetchDetails = (db, 1) ∧
      runResult db none fetchDetails = db ∧
      (run_pipeline db none fetchDetails).2 ≠ 0 :=
  ⟨rfl, rfl, Nat.one_ne_zero⟩

/-- Claim C10: the GET handler of /api/routes/[id]/coordinates answers 400
with body error "Invalid route ID" and issues no database query when the
id path segment does not parse as an integer, and otherwise answers the
route's coordinate rows ordered by sequence_order ascending (a sorted
permutation of the rows whose route_id matches). -/
theorem c10_coordinates_endpoint (table : List RouteCoordRow) (idStr : String) :
    (jsParseInt idStr = none →
      coordinates_GET table idStr = (CoordResponse.badRequest "Invalid route ID", 0) ∧
        (coordinates_GET table idStr).1.status = 400) ∧
    (∀ n : Int, jsParseInt idStr = some n →
      coordinates_GET table idStr = (CoordResponse.ok (selectCoordinates table n), 1) ∧
        List.Perm (selectCoordinates table n)
          (table.filter fun c => (c.routeId : Int) == n) ∧
        List.Sorted seqLe (selectCoordinates table n)) := by
  constructor
  · intro h
    constructor
    · simp [coordinates_GET, h]
    · simp [coordinates_GET, h, CoordResponse.status]
  · intro n h
    refine ⟨by simp [coordinates_GET, h], ?_, ?_⟩
    · exact List.perm_insertionSort seqLe _
    · exact List.sorted_insertionSort seqLe _

/-- Claim C10 witness: on the sample table the handler answers 400 without
querying for the non-numeric id "abc" and answers the sorted matching rows
for id "501". -/
theorem c10_coordinates_endpoint_witness :
    (coordinates_GET sampleCoordTable "abc"
        = (CoordResponse.badRequest "Invalid route ID", 0) ∧
      (coordinates_GET sampleCoordTable "abc").1.status = 400) ∧
    (coordinates_GET sampleCoordTable "501"
        = (CoordResponse.ok (selectCoordinates sampleCoordTable 501), 1) ∧
      List.Perm (selectCoordinates sampleCoordTable 501)
        (sampleCoordTable.filter fun c => (c.routeId : Int) == 501) ∧
      List.Sorted seqLe (selectCoordinates sampleCoordTable 501)) :=
  ⟨(c10_coordinates_endpoint sampleCoordTable "abc").1 (by decide),
   (c10_coordinates_endpoint sampleCoordTable "501").2 501 (by decide)⟩

/-- Claim C1: after a successful run, every bus_stops row references an
existing buses row and an existing stop_details row, every routes row
references an existing buses row, and every route_coordinates row
references an existing routes row. -/
theorem c1_referential_integrity (db : Database) (l : List BusListItem)
    (fetchDetails : Nat → Option BusDetail) :
    (∀ bs ∈ (runResult db (some l) fetchDetails).bus_stops,
        (∃ b ∈ (runResult db (some l) fetchDetails).buses, b.id = bs.busId) ∧
        (∃ srow ∈ (runResult db (some l) fetchDetails).stop_details, srow.id = bs.stopId)) ∧
    (∀ r ∈ (runResult db (some l) fetchDetails).routes,
        ∃ b ∈ (runResult db (some l) fetchDetails).buses, b.id = r.busId) ∧
    (∀ c ∈ (runResult db (some l) fetchDetails).route_coordinates,
        ∃ r ∈ (runResult db (some l) fetchDetails).routes, r.id = c.routeId) := by
  have hrun : runResult db (some l) fetchDetails
      = save_all_data db (fetchedDetails l fetchDetails) := rfl
  rw [hrun]
  refine ⟨?_, ?_, ?_⟩
  · intro bs hbs
    simp only [save_all_data] at hbs ⊢
    obtain ⟨d, hd, e, he, rfl⟩ := (mem_save_bus_stops _ bs).1 hbs
    constructor
    · exact ⟨busRowOf d, List.mem_map_of_mem busRowOf hd, rfl⟩
    · have hmem : stopRowOf e.stop
          ∈ ((fetchedDetails l fetchDetails).flatMap fun d2 => d2.stops.map (·.stop)).map stopRowOf := by
        apply List.mem_map_of_mem
        exact List.mem_flatMap.2 ⟨d, hd, List.mem_map_of_mem _ he⟩
      obtain ⟨y, hy, hky⟩ := mem_key_dedupeByKey StopRow.id _ _ hmem
      exact ⟨y, hy, hky⟩
  · intro r hr
    simp only [save_all_data] at hr ⊢
    obtain ⟨d, hd, rt, hrt, rfl⟩ := (mem_save_routes _ r).1 hr
    exact ⟨busRowOf d, List.mem_map_of_mem busRowOf hd, rfl⟩
  · intro c hc
    simp only [save_all_data] at hc ⊢
    rw [save_route_coordinates_eq] at hc
    obtain ⟨rt, hrt, hcrt⟩ := List.mem_flatMap.1 hc
    obtain ⟨d, hd, hrtd⟩ := List.mem_flatMap.1 hrt
    refine ⟨routeRowOf d.id rt, ?_, ?_⟩
    · exact (mem_save_routes _ _).2 ⟨d, hd, rt, hrtd, rfl⟩
    · exact (coordRowsOf_routeId rt c hcrt).symm

/-- Claim C1 witness: in the sample run, the first link row of bus 1
resolves to an existing bus row and an existing stop row. -/
theorem c1_referential_integrity_witness :
    (∃ b ∈ (runResult emptyDb (some sampleBusList) sampleFetch).buses,
        b.id = (busStopRowOf 1 ⟨1001, stopInfoA, some "A1", "StopA", 0, 0, 1⟩).busId) ∧
    (∃ srow ∈ (runResult emptyDb (some sampleBusList) sampleFetch).stop_details,
        srow.id = (busStopRowOf 1 ⟨1001, stopInfoA, some "A1", "StopA", 0, 0, 1⟩).stopId) :=
  (c1_referential_integrity emptyDb sampleBusList sampleFetch).1
    (busStopRowOf 1 ⟨1001, stopInfoA, some "A1", "StopA", 0, 0, 1⟩) (by decide)

/-- Claim C9: a run never deletes reference rows: every payment_types,
regions and working_zone_types row present before the run is still present
by id afterwards (fields possibly updated by the upsert), while every
other table is destroyed and recreated: its contents after the run do not
depend on the prior dataset at all. -/
theorem c9_reference_rows_persist (db : Database) (l : List BusListItem)
    (fetchDetails : Nat → Option BusDetail) :
    (∀ e ∈ db.payment_types,
        ∃ e2 ∈ (runResult db (some l) fetchDetails).payment_types, e2.id = e.id) ∧
    (∀ e ∈ db.regions,
        ∃ e2 ∈ (runResult db (some l) fetchDetails).regions, e2.id = e.id) ∧
    (∀ e ∈ db.working_zone_types,
        ∃ e2 ∈ (runResult db (some l) fetchDetails).working_zone_types, e2.id = e.id) ∧
    (∀ db2 : Database,
      (runResult db2 (some l) fetchDetails).stop_details
          = (runResult db (some l) fetchDetails).stop_details ∧
      (runResult db2 (some l) fetchDetails).buses
          = (runResult db (some l) fetchDetails).buses ∧
      (runResult db2 (some l) fetchDetails).bus_stops
          = (runResult db (some l) fetchDetails).bus_stops ∧
      (runResult db2 (some l) fetchDetails).routes
          = (runResult db (some l) fetchDetails).routes ∧
      (runResult db2 (some l) fetchDetails).route_coordinates
          = (runResult db (some l) fetchDetails).route_coordinates) := by
  refine ⟨?_, ?_, ?_, fun db2 => ⟨rfl, rfl, rfl, rfl, rfl⟩⟩
  · intro e he
    exact upsert_reference_data_preserves db.payment_types _ e he
  · intro e he
    exact upsert_reference_data_preserves db.regions _ e he
  · intro e he
    exact upsert_reference_data_preserves db.working_zone_types _ e he

/-- Claim C9 witness: the pre-existing payment type with id 9 survives the
sample run, and the buses table after the run is the same whether the run
started from the empty dataset or from the sample dataset. -/
theorem c9_reference_rows_persist_witness :
    (∃ e2 ∈ (runResult sampleDb (some sampleBusList) sampleFetch).payment_types,
        e2.id = (⟨9, "Old", none, true, 7⟩ : RefEntry).id) ∧
    (runResult emptyDb (some sampleBusList) sampleFetch).buses
      = (runResult sampleDb (some sampleBusList) sampleFetch).buses :=
  ⟨(c9_reference_rows_persist sampleDb sampleBusList sampleFetch).1
      ⟨9, "Old", none, true, 7⟩ (by decide),
   ((c9_reference_rows_persist sampleDb sampleBusList sampleFetch).2.2.2 emptyDb).2.1⟩

/-- Claim C2: when the detail fetch of exactly one identifier among the N
of the list fails and every other identifier fetches a record carrying its
own id, the run continues and persists exactly N-1 buses rows, no bus_stops
or routes row references the failed identifier, every route_coordinates row
belongs to a routes row of a surviving bus, and the whole run result equals
the run over the N-1 successful identifiers alone. -/
theorem c2_partial_failure_isolation (db : Database) (l : List BusListItem)
    (fetchDetails : Nat → Option BusDetail) (fid : Nat)
    (hmem : fid ∈ l.map BusListItem.id)
    (hnd : (l.map BusListItem.id).Nodup)
    (hfail : fetchDetails fid = none)
    (hok : ∀ i ∈ l.map BusListItem.id, i ≠ fid → fetchOk fetchDetails i = true) :
    (runResult db (some l) fetchDetails).buses.length = l.length - 1 ∧
    (∀ b ∈ (runResult db (some l) fetchDetails).buses, b.id ≠ fid) ∧
    (∀ bs ∈ (runResult db (some l) fetchDetails).bus_stops, bs.busId ≠ fid) ∧
    (∀ r ∈ (runResult db (some l) fetchDetails).routes, r.busId ≠ fid) ∧
    (∀ c ∈ (runResult db (some l) fetchDetails).route_coordinates,
        ∃ r ∈ (runResult db (some l) fetchDetails).routes,
          r.id = c.routeId ∧ r.busId ≠ fid) ∧
    run_pipeline db (some l) fetchDetails
      = run_pipeline db (some (l.filter fun b => b.id != fid)) fetchDetails := by
  have hsome : ∀ b ∈ l, b.id ≠ fid → (fetchDetails b.id).isSome := by
    intro b hb hbf
    have hv := hok b.id (List.mem_map_of_mem _ hb) hbf
    unfold fetchOk at hv
    cases h : fetchDetails b.id with
    | none => rw [h] at hv; cases hv
    | some d => simp
  have hgood : ∀ b ∈ l, ∀ d, fetchDetails b.id = some d → d.id = b.id ∧ b.id ≠ fid := by
    intro b hb d hd
    by_cases hbf : b.id = fid
    · rw [hbf, hfail] at hd; cases hd
    · have hv := hok b.id (List.mem_map_of_mem _ hb) hbf
      unfold fetchOk at hv
      rw [hd] at hv
      exact ⟨by simpa using hv, hbf⟩
  have hdne : ∀ d ∈ fetchedDetails l fetchDetails, d.id ≠ fid := by
    intro d hd
    obtain ⟨b, hb, hbd⟩ := List.mem_filterMap.1 hd
    obtain ⟨hdid, hbf⟩ := hgood b hb d hbd
    rw [hdid]
    exact hbf
  have hfeq : fetchedDetails l fetchDetails
      = fetchedDetails (l.filter fun b => b.id != fid) fetchDetails := by
    apply filterMap_eq_filterMap_filter
    intro b _ hp
    have : b.id = fid := by simpa using hp
    rw [this, hfail]
  have hrun : runResult db (some l) fetchDetails
      = save_all_data db (fetchedDetails l fetchDetails) := rfl
  refine ⟨?_, ?_, ?_, ?_, ?_, ?_⟩
  · show (save_all_data db (fetchedDetails l fetchDetails)).buses.length = l.length - 1
    simp only [save_all_data, save_buses]
    rw [List.length_map, hfeq, fetchedDetails, length_filterMap_all_isSome,
      length_filter_of_single_failure l fid hmem hnd]
    intro b hb
    have hb2 := List.mem_filter.1 hb
    exact hsome b hb2.1 (by simpa using hb2.2)
  · intro b hb
    rw [hrun] at hb
    simp only [save_all_data, save_buses] at hb
    obtain ⟨d, hd, rfl⟩ := List.mem_map.1 hb
    exact hdne d hd
  · intro bs hbs
    rw [hrun] at hbs
    simp only [save_all_data] at hbs
    obtain ⟨d, hd, e, _, rfl⟩ := (mem_save_bus_stops _ bs).1 hbs
    exact hdne d hd
  · intro r hr
    rw [hrun] at hr
    simp only [save_all_data] at hr
    obtain ⟨d, hd, rt, _, rfl⟩ := (mem_save_routes _ r).1 hr
    exact hdne d hd
  · intro c hc
    rw [hrun] at hc
    simp only [save_all_data] at hc
    rw [save_route_coordinates_eq] at hc
    obtain ⟨rt, hrt, hcrt⟩ := List.mem_flatMap.1 hc
    obtain ⟨d, hd, hrtd⟩ := List.mem_flatMap.1 hrt
    refine ⟨routeRowOf d.id rt, ?_, ?_, ?_⟩
    · rw [hrun]
      exact (mem_save_routes _ _).2 ⟨d, hd, rt, hrtd, rfl⟩
    · exact (coordRowsOf_routeId rt c hcrt).symm
    · exact hdne d hd
  · calc run_pipeline db (some l) fetchDetails
        = (save_all_data db (fetchedDetails l fetchDetails), 0) := rfl
      _ = (save_all_data db
            (fetchedDetails (l.filter fun b => b.id != fid) fetchDetails), 0) := by
          rw [hfeq]
      _ = run_pipeline db (some (l.filter fun b => b.id != fid)) fetchDetails := rfl

/-- Claim C2 witness: in the sample run over three identifiers where only
id 2 fails, two buses rows are persisted, the first routes row does not
reference id 2, and the run equals the run over ids 1 and 3 alone. -/
theorem c2_partial_failure_isolation_witness :
    (runResult emptyDb (some sampleBusList) sampleFetch).buses.length
        = sampleBusList.length - 1 ∧
      run_pipeline emptyDb (some sampleBusList) sampleFetch
        = run_pipeline emptyDb (some (sampleBusList.filter fun b => b.id != 2)) sampleFetch :=
  ⟨(c2_partial_failure_isolation emptyDb sampleBusList sampleFetch 2
      (by decide) (by decide) (by decide) (by decide)).1,
   (c2_partial_failure_isolation emptyDb sampleBusList sampleFetch 2
      (by decide) (by decide) (by decide) (by decide)).2.2.2.2.2⟩

theorem countP_ne_zero_eq_any {α : Type} (p : α → Bool) (L : List α) :
    (L.countP p != 0) = L.any p := by
  cases h : L.any p
  · rw [List.any_eq_false] at h
    have h0 : L.countP p = 0 := List.countP_eq_zero.2 fun a ha => by simpa using h a ha
    simp [h0]
  · have h0 : 0 < L.countP p := List.countP_pos_iff.2 (List.any_eq_true.1 h)
    simp only [bne_iff_ne, ne_eq, decide_not]
    omega

/-- Claim C5: a stop appearing in the payloads of K different fetched
routes (at most once per payload, K at least 1) produces exactly one
stop_details row with that id and exactly K bus_stops rows referencing
it after a successful run. -/
theorem c5_stop_deduplication (db : Database) (l : List BusListItem)
    (fetchDetails : Nat → Option BusDetail) (s K : Nat) (hK : 1 ≤ K)
    (hcount : ((fetchedDetails l fetchDetails).countP
        fun d => d.stops.any fun e => e.stop.id == s) = K)
    (honce : ∀ d ∈ fetchedDetails l fetchDetails,
        (d.stops.countP fun e => e.stop.id == s) ≤ 1) :
    ((runResult db (some l) fetchDetails).stop_details.countP fun r => r.id == s) = 1 ∧
    ((runResult db (some l) fetchDetails).bus_stops.countP fun r => r.stopId == s) = K := by
  have hrun : runResult db (some l) fetchDetails
      = save_all_data db (fetchedDetails l fetchDetails) := rfl
  rw [hrun]
  set all := fetchedDetails l fetchDetails with hall
  constructor
  · show ((save_stop_details all).countP fun r => r.id == s) = 1
    rw [save_stop_details, countP_dedupeByKey StopRow.id]
    have hpos : 0 < all.countP fun d => d.stops.any fun e => e.stop.id == s := by
      omega
    obtain ⟨d, hd, hany⟩ := List.countP_pos_iff.1 hpos
    obtain ⟨e, he, hes⟩ := List.any_eq_true.1 hany
    have hmem : stopRowOf e.stop
        ∈ (all.flatMap fun d2 => d2.stops.map (·.stop)).map stopRowOf := by
      apply List.mem_map_of_mem
      exact List.mem_flatMap.2 ⟨d, hd, List.mem_map_of_mem _ he⟩
    rw [if_pos (List.any_eq_true.2 ⟨stopRowOf e.stop, hmem, hes⟩)]
  · show ((save_bus_stops all).countP fun r => r.stopId == s) = K
    rw [save_bus_stops, countP_flatMap]
    have hinner : ∀ d : BusDetail,
        ((d.stops.map (busStopRowOf d.id)).countP fun r => r.stopId == s)
          = d.stops.countP fun e => e.stop.id == s := by
      intro d
      rw [List.countP_map]
      rfl
    rw [List.map_congr_left fun d _ => hinner d]
    rw [sum_map_eq_countP _ _ honce]
    rw [← hcount]
    apply List.countP_congr
    intro d _
    rw [countP_ne_zero_eq_any (fun e => e.stop.id == s) d.stops]

/-- Claim C5 witness: stop 101 appears in the payloads of both sample
buses, and the sample run persists exactly one stop_details row with id
101 and exactly two bus_stops rows referencing it. -/
theorem c5_stop_deduplication_witness :
    ((runResult emptyDb (some sampleBusList) sampleFetch).stop_details.countP
        fun r => r.id == 101) = 1 ∧
    ((runResult emptyDb (some sampleBusList) sampleFetch).bus_stops.countP
        fun r => r.stopId == 101) = 2 :=
  c5_stop_deduplication emptyDb sampleBusList sampleFetch 101 2
    (by decide) (by decide) (by decide)

theorem save_routes_filter_bus (all : List BusDetail) (d : BusDetail)
    (hndBus : (all.map BusDetail.id).Nodup) (hd : d ∈ all) :
    (save_routes all).filter (fun r => r.busId == d.id) = d.routes.map (routeRowOf d.id) := by
  rw [save_routes]
  exact filter_flatMap_key all BusDetail.id (fun d2 => d2.routes.map (routeRowOf d2.id))
    RouteRow.busId
    (by
      intro b _ a ha
      obtain ⟨rt, _, rfl⟩ := List.mem_map.1 ha
      rfl)
    hndBus d hd

theorem save_route_coordinates_filter_route (all : List BusDetail) (d : BusDetail)
    (rt : RouteInfo)
    (hndRoutes : ((all.flatMap BusDetail.routes).map RouteInfo.id).Nodup)
    (hd : d ∈ all) (hrt : rt ∈ d.routes) :
    (save_route_coordinates all).filter (fun c => c.routeId == rt.id) = coordRowsOf rt := by
  rw [save_route_coordinates_eq]
  exact filter_flatMap_key (all.flatMap BusDetail.routes) RouteInfo.id coordRowsOf
    RouteCoordRow.routeId (fun b _ a ha => coordRowsOf_routeId b a ha) hndRoutes rt
    (List.mem_flatMap.2 ⟨d, hd, hrt⟩)

/-- Claim C6: when bus ids and route-variant ids are pairwise distinct,
every fetched record with both direction sub-structures contributes
exactly two routes rows carrying its own id as parent (with the two
direction types of its sub-structures), each variant's k-point polyline
yields exactly k route_coordinates rows, and two successful records with
two directions of five points each yield 2 buses rows, 4 routes rows and
20 route_coordinates rows. -/
theorem c6_direction_fanout (db : Database) (l : List BusListItem)
    (fetchDetails : Nat → Option BusDetail)
    (hndBus : ((fetchedDetails l fetchDetails).map BusDetail.id).Nodup)
    (hndRoutes : (((fetchedDetails l fetchDetails).flatMap BusDetail.routes).map
        RouteInfo.id).Nodup) :
    (∀ d ∈ fetchedDetails l fetchDetails, d.routes.length = 2 →
        ((runResult db (some l) fetchDetails).routes.filter
            fun r => r.busId == d.id).length = 2 ∧
        ((runResult db (some l) fetchDetails).routes.filter
            fun r => r.busId == d.id).map RouteRow.directionTypeId
          = d.routes.map RouteInfo.directionTypeId) ∧
    (∀ d ∈ fetchedDetails l fetchDetails, ∀ rt ∈ d.routes,
        ((runResult db (some l) fetchDetails).route_coordinates.filter
            fun c => c.routeId == rt.id).length = rt.flowCoordinates.length) ∧
    ((fetchedDetails l fetchDetails).length = 2 →
     (∀ d ∈ fetchedDetails l fetchDetails, d.routes.length = 2) →
     (∀ d ∈ fetchedDetails l fetchDetails, ∀ rt ∈ d.routes,
        rt.flowCoordinates.length = 5) →
     (runResult db (some l) fetchDetails).buses.length = 2 ∧
       (runResult db (some l) fetchDetails).routes.length = 4 ∧
       (runResult db (some l) fetchDetails).route_coordinates.length = 20) := by
  have hrun : runResult db (some l) fetchDetails
      = save_all_data db (fetchedDetails l fetchDetails) := rfl
  set all := fetchedDetails l fetchDetails with hall
  refine ⟨?_, ?_, ?_⟩
  · intro d hd h2
    have hfilter : (save_routes all).filter (fun r => r.busId == d.id)
        = d.routes.map (routeRowOf d.id) := save_routes_filter_bus all d hndBus hd
    constructor
    · show ((save_all_data db all).routes.filter fun r => r.busId == d.id).length = 2
      simp only [save_all_data]
      rw [hfilter, List.length_map, h2]
    · show ((save_all_data db all).routes.filter fun r => r.busId == d.id).map
          RouteRow.directionTypeId = d.routes.map RouteInfo.directionTypeId
      simp only [save_all_data]
      rw [hfilter, List.map_map]
      rfl
  · intro d hd rt hrt
    show ((save_all_data db all).route_coordinates.filter
        fun c => c.routeId == rt.id).length = rt.flowCoordinates.length
    simp only [save_all_data]
    rw [save_route_coordinates_filter_route all d rt hndRoutes hd hrt,
      coordRowsOf_length]
  · intro hlen2 hroutes2 hflow5
    obtain ⟨d1, d2, h2⟩ := List.length_eq_two.1 hlen2
    have hd1 : d1 ∈ all := by rw [h2]; exact List.mem_cons_self _ _
    have hd2 : d2 ∈ all := by rw [h2]; exact List.mem_cons_of_mem _ (List.mem_cons_self _ _)
    have hl1 : d1.routes.length = 2 := hroutes2 d1 hd1
    have hl2 : d2.routes.length = 2 := hroutes2 d2 hd2
    refine ⟨?_, ?_, ?_⟩
    · show (save_all_data db all).buses.length = 2
      simp [save_all_data, save_buses, h2]
    · show (save_all_data db all).routes.length = 4
      simp only [save_all_data]
      rw [save_routes, h2]
      simp [List.flatMap_cons, hl1, hl2]
    · show (save_all_data db all).route_coordinates.length = 20
      simp only [save_all_data]
      rw [save_route_coordinates_eq, List.length_flatMap]
      have hconst : ∀ rt ∈ all.flatMap BusDetail.routes, (coordRowsOf rt).length = 5 := by
        intro rt hrt
        obtain ⟨d, hd, hrtd⟩ := List.mem_flatMap.1 hrt
        rw [coordRowsOf_length]
        exact hflow5 d hd rt hrtd
      have hlen4 : (all.flatMap BusDetail.routes).length = 4 := by
        rw [h2]
        simp [List.flatMap_cons, hl1, hl2]
      rw [show (List.length ∘ coordRowsOf)
            = (fun rt => (coordRowsOf rt).length) from rfl,
        List.map_congr_left hconst]
      simp [List.map_const', hlen4, List.sum_replicate]

/-- Claim C6 witness: the sample run over two successful records with two
directions of five points each persists 2 buses rows, 4 routes rows and 20
route_coordinates rows. -/
theorem c6_direction_fanout_witness :
    (runResult emptyDb (some sampleBusList) sampleFetch).buses.length = 2 ∧
      (runResult emptyDb (some sampleBusList) sampleFetch).routes.length = 4 ∧
      (runResult emptyDb (some sampleBusList) sampleFetch).route_coordinates.length = 20 :=
  (c6_direction_fanout emptyDb sampleBusList sampleFetch (by decide) (by decide)).2.2
    (by decide) (by decide) (by decide)

/-- Claim C7: when route-variant ids are pairwise distinct, the
route_coordinates rows of each variant carry, in order, exactly the
sequence numbers 0, 1, ..., k-1 for its k polyline points: contiguous from
the common origin 0, strictly increasing in source order, with no gaps or
duplicates and no sharing across variants. -/
theorem c7_sequence_contiguity (db : Database) (l : List BusListItem)
    (fetchDetails : Nat → Option BusDetail)
    (hndRoutes : (((fetchedDetails l fetchDetails).flatMap BusDetail.routes).map
        RouteInfo.id).Nodup) :
    ∀ d ∈ fetchedDetails l fetchDetails, ∀ rt ∈ d.routes,
      (((runResult db (some l) fetchDetails).route_coordinates.filter
          fun c => c.routeId == rt.id).map RouteCoordRow.sequenceOrder)
        = List.range rt.flowCoordinates.length := by
  intro d hd rt hrt
  show (((save_all_data db (fetchedDetails l fetchDetails)).route_coordinates.filter
      fun c => c.routeId == rt.id).map RouteCoordRow.sequenceOrder) = _
  simp only [save_all_data]
  rw [save_route_coordinates_filter_route _ d rt hndRoutes hd hrt, coordRowsOf_map_seq]

/-- Claim C7 witness: the coordinate rows of sample variant 11 carry the
sequence numbers 0 through 4 in order. -/
theorem c7_sequence_contiguity_witness :
    (((runResult emptyDb (some sampleBusList) sampleFetch).route_coordinates.filter
        fun c => c.routeId == route11.id).map RouteCoordRow.sequenceOrder)
      = List.range route11.flowCoordinates.length :=
  c7_sequence_contiguity emptyDb sampleBusList sampleFetch (by decide)
    busDetail1 (by decide) route11 (by decide)

end BakuBus
